import Mathlib

/-!
# Reportes.jsx: history view, relative time and CSV export

A shallow embedding of `src/pages/Reportes.jsx`.

* JavaScript values that reach the component come from `res.json()`, so a
  record field is a JSON primitive or is missing (`undefined`).
* Built-ins that the file calls but does not define (`Number` on strings,
  number formatting, `Date` parsing and formatting) are the fields of `Host`.
* React state is the record `State`; an asynchronous handler is the function
  from the state before the call to the state after it, together with the
  outcome of what it awaited.
-/

namespace Reportes

/-! ## JavaScript values -/

/-- A JavaScript number: NaN, an infinity, or a finite value. -/
inductive JSNumber
  | nan
  | infinity (negative : Bool)
  | finite (q : ℚ)
  deriving DecidableEq

/-- A primitive JavaScript value, as a field of a parsed JSON object can be
(`undefined` when the property is missing). -/
inductive JSVal
  | undefined
  | null
  | bool (b : Bool)
  | number (x : JSNumber)
  | string (s : String)
  deriving DecidableEq

/-- The built-ins of the JavaScript host that `Reportes.jsx` relies on. -/
structure Host where
  /-- `Number(s)` for a string `s`; `JSNumber.nan` when `s` is not a numeric literal. -/
  StringToNumber : String → JSNumber
  /-- `String(x)` for a number `x`. -/
  NumberToString : JSNumber → String
  /-- `x.toFixed(digits)`. -/
  toFixed : JSNumber → Nat → String
  /-- `new Date(v).getTime()` in milliseconds; `none` for an invalid date (NaN). -/
  dateValue : JSVal → Option Int
  /-- `Date.prototype.toISOString` of a valid time value. -/
  toISOString : Int → String
  /-- `d.toLocaleString("es-ES")` of a valid time value. -/
  toLocaleStringES : Int → String
  /-- `d.toLocaleString("es-ES", { dateStyle: "medium", timeStyle: "short" })`
  of a valid time value. -/
  toLocaleStringMediumShort : Int → String

/-- What `toLocaleString` returns for an invalid date. -/
def invalidDate : String := "Invalid Date"

/-- `a ?? b`: `b` exactly when `a` is `null` or `undefined`. -/
def nullish (a b : JSVal) : JSVal :=
  match a with
  | .undefined => b
  | .null => b
  | v => v

/-- `Number(v)` (ECMAScript ToNumber on a primitive). -/
def toNumber (P : Host) : JSVal → JSNumber
  | .undefined => .nan
  | .null => .finite 0
  | .bool true => .finite 1
  | .bool false => .finite 0
  | .number x => x
  | .string s => P.StringToNumber s

/-- `String(v)` (ECMAScript ToString on a primitive). -/
def toStr (P : Host) : JSVal → String
  | .undefined => "undefined"
  | .null => "null"
  | .bool true => "true"
  | .bool false => "false"
  | .number x => P.NumberToString x
  | .string s => s

/-- JavaScript truthiness of a primitive. -/
def truthy : JSVal → Bool
  | .undefined => false
  | .null => false
  | .bool b => b
  | .number .nan => false
  | .number (.infinity _) => true
  | .number (.finite q) => decide (q ≠ 0)
  | .string s => decide (s ≠ "")

/-! ## `timeAgo` (lines 12-23) -/

/-- `timeAgo(iso)` evaluated when `Date.now()` is `now` (milliseconds).

`d.getTime()` and `Date.now()` are integers of magnitude below 2^53 (a time
value is at most 8.64e15 in absolute value), so their difference is exact and
the rounding of the quotients stays below the distance of a non-integer quotient
to the next integer: `Math.floor(x / 1000)` and the later `Math.floor` calls are
floor divisions. On `Int`, `/` by a positive literal is the floor division.
With an invalid date every comparison is made with NaN and is false, so line 22
is reached and yields `invalidDate`. -/
def timeAgo (P : Host) (now : Int) (iso : JSVal) : String :=
  match P.dateValue iso with
  | none => invalidDate
  | some t =>
    let s := (now - t) / 1000
    if s < 60 then "hace unos segundos" else
    let m := s / 60
    if m < 60 then s!"hace {m} min" else
    let h := m / 60
    if h < 24 then s!"hace {h} h" else
    let days := h / 24
    let plural := if days > 1 then "s" else ""
    if days ≤ 7 then s!"hace {days} día{plural}" else
    P.toLocaleStringMediumShort t

/-- The `return` statement of `timeAgo` that produced the result, with the
number it interpolates. -/
inductive Phrase
  | segundos
  | minutos (m : Int)
  | horas (h : Int)
  | dias (days : Int)
  | fecha (t : Int)
  deriving DecidableEq

/-- The branch structure of `timeAgo` (lines 14-22) for a valid time value. -/
def timeAgoPhrase (now t : Int) : Phrase :=
  let s := (now - t) / 1000
  if s < 60 then .segundos else
  let m := s / 60
  if m < 60 then .minutos m else
  let h := m / 60
  if h < 24 then .horas h else
  let days := h / 24
  if days ≤ 7 then .dias days else
  .fecha t

/-- The string each `return` statement of `timeAgo` builds. -/
def Phrase.render (P : Host) : Phrase → String
  | .segundos => "hace unos segundos"
  | .minutos m => s!"hace {m} min"
  | .horas h => s!"hace {h} h"
  | .dias days =>
    let plural := if days > 1 then "s" else ""
    s!"hace {days} día{plural}"
  | .fecha t => P.toLocaleStringMediumShort t

/-- Position of a phrase in the order
seconds phrase < "N min" < "N h" < "N día(s)" < absolute date. -/
def Phrase.rank : Phrase → Nat
  | .segundos => 0
  | .minutos _ => 1
  | .horas _ => 2
  | .dias _ => 3
  | .fecha _ => 4

/-- The number `N` a phrase reports, when it reports one. -/
def Phrase.count : Phrase → Option Int
  | .segundos => none
  | .minutos m => some m
  | .horas h => some h
  | .dias days => some days
  | .fecha _ => none

/-! ## Records and view state (lines 25-29) -/

/-- One element of `json.items`; every property is read as-is, `undefined`
when the server left it out. -/
structure Registro where
  id : JSVal
  username : JSVal
  texto_busqueda : JSVal
  tipo : JSVal
  lng : JSVal
  lat : JSVal
  creado_en : JSVal
  deriving DecidableEq

/-- The four `useState` slots of the component. -/
structure State where
  items : List Registro
  loading : Bool
  err : String
  exporting : Bool
  deriving DecidableEq

/-- The state on mount: the initial values passed to `useState`. -/
def State.init : State :=
  { items := [], loading := true, err := "", exporting := false }

/-! ## `fetchHistorial` (lines 31-48) -/

/-- What `await res.json()` followed by `json.items` gives. -/
inductive Body
  /-- `res.json()` rejects, or the body is `null` so that `json.items` throws. -/
  | malformed
  /-- A JSON value whose `items` is the given array, or is `null`/missing. -/
  | json (items : Option (List Registro))

/-- What `await fetch(...)` gives. -/
inductive FetchOutcome
  /-- The promise rejects: network or transport failure. -/
  | rejected
  /-- A response arrived with this HTTP status. -/
  | response (status : Nat) (body : Body)

/-- `res.ok`: the status is in the range 200-299. -/
def statusOk (status : Nat) : Bool :=
  decide (200 ≤ status ∧ status ≤ 299)

/-- The text passed to `setErr` in the `catch` block (line 44). -/
def errorMessage : String := "No se pudo cargar el historial. Revisa tu sesión."

/-- Lines 33-34: the updates made before the request is awaited. -/
def fetchStart (st : State) : State :=
  let st := { st with loading := true }
  { st with err := "" }

/-- Lines 39-47: the updates made once the request has settled. -/
def fetchSettle (out : FetchOutcome) (st : State) : State :=
  let st :=
    match out with
    | .rejected => { st with err := errorMessage }
    | .response status body =>
      if !statusOk status then { st with err := errorMessage }
      else
        match body with
        | .malformed => { st with err := errorMessage }
        | .json items => { st with items := items.getD [] }
  { st with loading := false }

/-- The state after a whole run of `fetchHistorial` whose request settled as `out`. -/
def fetchHistorial (out : FetchOutcome) (st : State) : State :=
  fetchSettle out (fetchStart st)

/-- A failed fetch in the sense of the specification: a network or transport
failure, or a response whose status is not 2xx. -/
def FetchOutcome.failed : FetchOutcome → Bool
  | .rejected => true
  | .response status _ => !statusOk status

/-! ## `rowsForExport` (lines 54-64) -/

/-- A plain object built by an object literal: its properties in insertion order. -/
abbrev JSObject := List (String × JSVal)

/-- `Object.keys(o)`. -/
def JSObject.keys (o : JSObject) : List String :=
  o.map Prod.fst

/-- `o[h]`: the value of the property, `undefined` when there is none. -/
def JSObject.get (o : JSObject) (h : String) : JSVal :=
  match o with
  | [] => .undefined
  | (k, v) :: rest => if k = h then v else JSObject.get rest h

/-- The callback of `map` in `rowsForExport`; `none` when `toISOString`
throws a `RangeError` because `creado_en` is not a valid date. -/
def exportRow (P : Host) (it : Registro) : Option JSObject :=
  match P.dateValue it.creado_en with
  | none => none
  | some t =>
    some
      [ ("ID", it.id),
        ("Usuario", it.username),
        ("Texto", nullish it.texto_busqueda (.string "")),
        ("Tipo", nullish it.tipo (.string "")),
        ("Longitud", .number (toNumber P (nullish it.lng (.number (.finite 0))))),
        ("Latitud", .number (toNumber P (nullish it.lat (.number (.finite 0))))),
        ("FechaISO", .string (P.toISOString t)),
        ("FechaLocal", .string (P.toLocaleStringES t)) ]

/-- `rowsForExport()` over the held `items`; `none` when a callback throws. -/
def rowsForExport (P : Host) : List Registro → Option (List JSObject)
  | [] => some []
  | it :: rest =>
    match exportRow P it with
    | none => none
    | some r =>
      match rowsForExport P rest with
      | none => none
      | some rs => some (r :: rs)

/-! ## `exportCSV` (lines 66-82) and `exportExcel` (lines 84-105) -/

/-- What an export does to the outside world. -/
inductive Effect
  /-- `XLSX.writeFile` of a workbook with one sheet holding `rows`. -/
  | writeFile (sheet : String) (rows : List JSObject) (filename : String)
  /-- `console.warn`. -/
  | warn (msg : String)
  /-- A click on an anchor whose `href` is a blob of `content` and whose
  `download` is `filename`. -/
  | download (filename : String) (mime : String) (content : String)
  deriving DecidableEq

/-- `s.replace(/"/g, '""')`. -/
def doubleQuotes (s : String) : String :=
  String.mk (s.toList.flatMap fun c => if c = Char.ofNat 34 then [c, c] else [c])

/-- The arrow function `esc` (line 69). -/
def esc (P : Host) (v : JSVal) : String :=
  "\"" ++ doubleQuotes (toStr P (nullish v (.string ""))) ++ "\""

/-- `new Date().toISOString().slice(0, 10)` when `Date.now()` is `now`. -/
def today (P : Host) (now : Int) : String :=
  String.mk ((P.toISOString now).toList.take 10)

/-- The text `csv` (lines 68-73) for a non-empty `rows` whose first row is `r0`. -/
def csvText (P : Host) (r0 : JSObject) (rows : List JSObject) : String :=
  let headers := r0.keys
  String.intercalate "\r\n"
    (String.intercalate "," headers ::
      rows.map fun r => String.intercalate "," (headers.map fun h => esc P (r.get h)))

/-- `exportCSV(rows)`: the effects it has. -/
def exportCSV (P : Host) (now : Int) (rows : List JSObject) : List Effect :=
  match rows with
  | [] => []
  | r0 :: _ =>
    let csv := csvText P r0 rows
    let date := today P now
    [.download s!"historial_{date}.csv" "text/csv;charset=utf-8;" csv]

/-- The outcome of a run of `exportExcel`. -/
structure ExportResult where
  state : State
  effects : List Effect
  /-- Whether the returned promise rejects. -/
  threw : Bool
  deriving DecidableEq

/-- The text of the `console.warn` in the fallback (line 99). -/
def xlsxWarning : String :=
  "xlsx no disponible, exportando CSV. Para .xlsx: npm i xlsx"

/-- `exportExcel()`; `xlsxWorks` tells whether the inner `try` block (the
dynamic import and the calls into the library) runs to its end. -/
def exportExcel (P : Host) (now : Int) (xlsxWorks : Bool) (st : State) : ExportResult :=
  let st := { st with exporting := true }
  match rowsForExport P st.items with
  | none => { state := { st with exporting := false }, effects := [], threw := true }
  | some rows =>
    if rows.length = 0 then
      { state := { st with exporting := false }, effects := [], threw := false }
    else if xlsxWorks then
      let date := today P now
      { state := { st with exporting := false },
        effects := [.writeFile "Historial" rows s!"historial_{date}.xlsx"],
        threw := false }
    else
      { state := { st with exporting := false },
        effects := .warn xlsxWarning :: exportCSV P now rows,
        threw := false }

/-- The `disabled` attribute of the download button (line 129). -/
def exportDisabled (st : State) : Bool :=
  st.exporting || st.loading || decide (st.items.length = 0)

/-! ## The rendered content (lines 144-187) -/

/-- The icon of a row. -/
inductive Icon
  | landmark
  | mapPin
  deriving DecidableEq

/-- What one row of the list shows. -/
structure RowView where
  key : JSVal
  icon : Icon
  username : JSVal
  texto : JSVal
  tipo : Option JSVal
  tiempo : String
  deriving DecidableEq

/-- The body of `items.map` in the JSX (lines 156-183). -/
def renderRow (P : Host) (now : Int) (it : Registro) : RowView :=
  let lat := P.toFixed (toNumber P it.lat) 4
  let lng := P.toFixed (toNumber P it.lng) 4
  { key := it.id,
    icon := if it.tipo = .string "unesco" then .landmark else .mapPin,
    username := it.username,
    texto := if truthy it.texto_busqueda then it.texto_busqueda else .string s!"({lat}, {lng})",
    tipo := if truthy it.tipo then some it.tipo else none,
    tiempo := timeAgo P now it.creado_en }

/-- What `<main>` contains. -/
inductive MainContent
  | cargando
  | error (msg : String)
  | sinActividad
  | lista (rows : List RowView)
  deriving DecidableEq

/-- The text of the placeholder (line 152). -/
def sinActividadText : String := "Aún no hay actividad."

/-- The conditional chain inside `<main>` (lines 145-186). -/
def mainContent (P : Host) (now : Int) (st : State) : MainContent :=
  if st.loading then .cargando
  else if st.err ≠ "" then .error st.err
  else if st.items.length = 0 then .sinActividad
  else .lista (st.items.map (renderRow P now))

/-! ## The CSV text in the words of the specification -/

/-- The header line as the specification gives it. -/
def csvHeader : String := "ID,Usuario,Texto,Tipo,Longitud,Latitud,FechaISO,FechaLocal"

/-- A field as the specification words it: `String(value)`, the empty string
for `null` and `undefined`, each double quote doubled, the whole in double quotes. -/
def csvField (P : Host) (v : JSVal) : String :=
  let text :=
    match v with
    | .undefined => ""
    | .null => ""
    | w => toStr P w
  "\"" ++ doubleQuotes text ++ "\""

/-- A line as the specification words it: the fields of the row, in the order
of the row, joined by commas. -/
def csvLine (P : Host) (r : JSObject) : String :=
  String.intercalate "," (r.map fun kv => csvField P kv.2)

/-- The whole text as the specification words it: the header line and one line
per row, joined by CRLF. -/
def csvSpec (P : Host) (rows : List JSObject) : String :=
  String.intercalate "\r\n" (csvHeader :: rows.map (csvLine P))

/-! ## A host for concrete checks -/

/-- A host that answers as a browser in the UTC time zone does on the few
inputs the concrete checks below use; elsewhere its answers are placeholders. -/
def testHost : Host where
  StringToNumber := fun s => if s = "2.5" then .finite (Rat.mk' 5 2 (by decide) (by decide)) else .nan
  NumberToString := fun x =>
    match x with
    | .nan => "NaN"
    | .infinity false => "Infinity"
    | .infinity true => "-Infinity"
    | .finite q =>
      if q.den = 1 then toString q.num
      else if q.num = 5 ∧ q.den = 2 then "2.5"
      else if q.num = 11 ∧ q.den = 10 then "1.1"
      else ""
  toFixed := fun _ _ => ""
  dateValue := fun v =>
    if v = .string "2024-01-01T00:00:00.000Z" then some 1704067200000
    else if v = .string "2023-12-31T23:58:00.000Z" then some 1704067080000
    else if v = .string "2023-12-31T21:00:00.000Z" then some 1704056400000
    else none
  toISOString := fun t =>
    if t = 1704067200000 then "2024-01-01T00:00:00.000Z"
    else if t = 1704672000000 then "2024-01-08T00:00:00.000Z"
    else ""
  toLocaleStringES := fun t => if t = 1704067200000 then "1/1/2024, 0:00:00" else ""
  toLocaleStringMediumShort := fun t => if t = 1704067200000 then "1 ene 2024, 0:00" else ""

/-- A record created at 2024-01-01T00:00:00Z. -/
def registroAna : Registro :=
  { id := .number (.finite 1),
    username := .string "ana",
    texto_busqueda := .string "He said \"hi\"",
    tipo := .string "unesco",
    lng := .number (.finite (Rat.mk' 5 2 (by decide) (by decide))),
    lat := .number (.finite (Rat.mk' 11 10 (by decide) (by decide))),
    creado_en := .string "2024-01-01T00:00:00.000Z" }

/-! ## Theorems about `timeAgo` -/

/-- On a valid date `timeAgo` returns the string of the branch `timeAgoPhrase` names. -/
theorem timeAgo_eq_render (P : Host) (now t : Int) (iso : JSVal)
    (hd : P.dateValue iso = some t) :
    timeAgo P now iso = (timeAgoPhrase now t).render P := by
  unfold timeAgo timeAgoPhrase
  rw [hd]
  simp only []
  by_cases c1 : (now - t) / 1000 < 60
  · rw [if_pos c1, if_pos c1]; rfl
  rw [if_neg c1, if_neg c1]
  by_cases c2 : (now - t) / 1000 / 60 < 60
  · rw [if_pos c2, if_pos c2]; rfl
  rw [if_neg c2, if_neg c2]
  by_cases c3 : (now - t) / 1000 / 60 / 60 < 24
  · rw [if_pos c3, if_pos c3]; rfl
  rw [if_neg c3, if_neg c3]
  by_cases c4 : (now - t) / 1000 / 60 / 60 / 24 ≤ 7
  · rw [if_pos c4, if_pos c4]; rfl
  rw [if_neg c4, if_neg c4]; rfl

/-- C1: with `s` the elapsed whole seconds, `timeAgo` returns the seconds phrase
when `s < 60`, "hace N min" with `N = s / 60` when `60 ≤ s < 3600`,
"hace N h" with `N = s / 3600` when `3600 ≤ s < 86400`, and
"hace N día" with `N = s / 86400`, followed by "s" exactly when `N > 1`,
when `86400 ≤ s ≤ 7 * 86400`. -/
theorem timeAgo_thresholds (P : Host) (now t s : Int) (iso : JSVal)
    (hd : P.dateValue iso = some t) (hs : s = (now - t) / 1000) :
    (s < 60 → timeAgo P now iso = "hace unos segundos") ∧
    (60 ≤ s → s < 3600 → timeAgo P now iso = "hace " ++ toString (s / 60) ++ " min") ∧
    (3600 ≤ s → s < 86400 → timeAgo P now iso = "hace " ++ toString (s / 3600) ++ " h") ∧
    (86400 ≤ s → s ≤ 7 * 86400 →
      timeAgo P now iso =
        "hace " ++ toString (s / 86400) ++ " día" ++ (if s / 86400 > 1 then "s" else "")) := by
  subst hs
  have e1 : (now - t) / 1000 / 60 / 60 = (now - t) / 1000 / 3600 := by omega
  have e2 : (now - t) / 1000 / 60 / 60 / 24 = (now - t) / 1000 / 86400 := by omega
  unfold timeAgo
  rw [hd]
  simp only []
  refine ⟨?_, ?_, ?_, ?_⟩
  · intro h
    rw [if_pos h]
  · intro h1 h2
    rw [if_neg (by omega), if_pos (by omega)]
    rfl
  · intro h1 h2
    rw [if_neg (by omega), if_neg (by omega), if_pos (by omega), e1]
    rfl
  · intro h1 h2
    rw [if_neg (by omega), if_neg (by omega), if_neg (by omega), if_pos (by omega), e2]
    simp [toString]

/-- C1 at a concrete input: 125 seconds after 2024-01-01T00:00:00Z the record
reads "hace 2 min". -/
theorem timeAgo_thresholds_witness :
    testHost.dateValue (.string "2024-01-01T00:00:00.000Z") = some 1704067200000 ∧
    timeAgo testHost 1704067325000 (.string "2024-01-01T00:00:00.000Z") = "hace 2 min" :=
  ⟨by decide,
   (timeAgo_thresholds testHost 1704067325000 1704067200000 125
      (.string "2024-01-01T00:00:00.000Z") (by decide) (by decide)).2.1
      (by decide) (by decide)⟩

/-- C2 as stated fails: 7 * 86400 + 1 seconds after the timestamp `timeAgo`
still returns "hace 7 días", which is not the absolute date of that timestamp. -/
theorem timeAgo_seven_days_one_second :
    (1704672001000 - 1704067200000 : Int) / 1000 = 7 * 86400 + 1 ∧
    timeAgo testHost 1704672001000 (.string "2024-01-01T00:00:00.000Z") = "hace 7 días" ∧
    timeAgo testHost 1704672001000 (.string "2024-01-01T00:00:00.000Z") ≠
      testHost.toLocaleStringMediumShort 1704067200000 ∧
    timeAgoPhrase 1704672001000 1704067200000 = .dias 7 := by
  decide

/-- C2, amended: exactly 7 * 86400 elapsed seconds give "hace 7 días", and so
does every elapsed time up to 8 * 86400 - 1 seconds; from 8 * 86400 elapsed seconds on
(whole days above 7) the result is the absolute localized date and time. -/
theorem timeAgo_week_boundary (P : Host) (now t s : Int) (iso : JSVal)
    (hd : P.dateValue iso = some t) (hs : s = (now - t) / 1000) :
    (s = 7 * 86400 → timeAgo P now iso = "hace 7 días") ∧
    (7 * 86400 ≤ s → s < 8 * 86400 → timeAgo P now iso = "hace 7 días") ∧
    (8 * 86400 ≤ s → timeAgo P now iso = P.toLocaleStringMediumShort t) := by
  subst hs
  have key : ∀ x : Int, 7 * 86400 ≤ x → x < 8 * 86400 → x / 60 / 60 / 24 = 7 := by
    intro x h1 h2
    omega
  have week : 7 * 86400 ≤ (now - t) / 1000 → (now - t) / 1000 < 8 * 86400 →
      timeAgo P now iso = "hace 7 días" := by
    intro h1 h2
    rw [timeAgo_eq_render P now t iso hd]
    unfold timeAgoPhrase
    simp only []
    rw [if_neg (by omega), if_neg (by omega), if_neg (by omega), if_pos (by omega),
      key _ h1 h2]
    rfl
  refine ⟨?_, week, ?_⟩
  · intro h
    exact week (by omega) (by omega)
  · intro h
    rw [timeAgo_eq_render P now t iso hd]
    unfold timeAgoPhrase
    simp only []
    rw [if_neg (by omega), if_neg (by omega), if_neg (by omega), if_neg (by omega)]
    rfl

/-- C2 amended, at a concrete input: 8 * 86400 seconds after 2024-01-01T00:00:00Z
the record shows the absolute date. -/
theorem timeAgo_week_boundary_witness :
    testHost.dateValue (.string "2024-01-01T00:00:00.000Z") = some 1704067200000 ∧
    timeAgo testHost 1704758400000 (.string "2024-01-01T00:00:00.000Z") = "1 ene 2024, 0:00" :=
  ⟨by decide,
   (timeAgo_week_boundary testHost 1704758400000 1704067200000 691200
      (.string "2024-01-01T00:00:00.000Z") (by decide) (by decide)).2.2 (by decide)⟩

/-- C10: at a fixed instant, an older timestamp never gets a smaller unit than a
newer one, and within one numeric unit its number is at least as large (past
timestamps or not). The strings returned are those of the branches compared. -/
theorem timeAgo_monotonic (P : Host) (now T1 T2 : Int) (iso1 iso2 : JSVal)
    (h1 : P.dateValue iso1 = some T1) (h2 : P.dateValue iso2 = some T2)
    (hlt : T1 < T2) :
    timeAgo P now iso1 = (timeAgoPhrase now T1).render P ∧
    timeAgo P now iso2 = (timeAgoPhrase now T2).render P ∧
    (timeAgoPhrase now T2).rank ≤ (timeAgoPhrase now T1).rank ∧
    ((timeAgoPhrase now T1).rank = (timeAgoPhrase now T2).rank →
      ∀ n1 n2 : Int, (timeAgoPhrase now T1).count = some n1 →
        (timeAgoPhrase now T2).count = some n2 → n2 ≤ n1) := by
  refine ⟨timeAgo_eq_render P now T1 iso1 h1, timeAgo_eq_render P now T2 iso2 h2, ?_, ?_⟩
  · unfold timeAgoPhrase
    simp only []
    split_ifs <;> simp only [Phrase.rank] <;> omega
  · unfold timeAgoPhrase
    simp only []
    split_ifs <;> simp only [Phrase.rank, Phrase.count] <;> intro hr n1 n2 e1 e2 <;>
      first
        | omega
        | (cases e1; done)
        | (cases e2; done)
        | (cases e1; cases e2; omega)

/-- C10 at a concrete input: at 2024-01-01T00:00:00Z a record 3 hours old reads
"hace 3 h" and one 2 minutes old reads "hace 2 min". -/
theorem timeAgo_monotonic_witness :
    timeAgo testHost 1704067200000 (.string "2023-12-31T21:00:00.000Z") = "hace 3 h" ∧
    timeAgo testHost 1704067200000 (.string "2023-12-31T23:58:00.000Z") = "hace 2 min" ∧
    (timeAgoPhrase 1704067200000 1704067080000).rank ≤
      (timeAgoPhrase 1704067200000 1704056400000).rank :=
  ⟨by decide, by decide,
   (timeAgo_monotonic testHost 1704067200000 1704056400000 1704067080000
      (.string "2023-12-31T21:00:00.000Z") (.string "2023-12-31T23:58:00.000Z")
      (by decide) (by decide) (by decide)).2.2.1⟩

/-! ## Theorems about `fetchHistorial` and the rendered content -/

/-- After any failed run the view is in the error state, whatever it held before. -/
theorem fetchHistorial_failed_eq (out : FetchOutcome) (st : State) (hf : out.failed = true) :
    fetchHistorial out st =
      { items := st.items, loading := false, err := errorMessage, exporting := st.exporting } := by
  cases out with
  | rejected => rfl
  | response status body =>
    have hok : statusOk status = false := by simpa [FetchOutcome.failed] using hf
    simp [fetchHistorial, fetchSettle, fetchStart, hok]

/-- C5: after a failed fetch (network failure or non-2xx status) the record list
is the one held before the call, the error message is the fixed text, loading
is false and the exporting flag is unchanged. -/
theorem fetchHistorial_failure_keeps_items (out : FetchOutcome) (st : State)
    (hf : out.failed = true) :
    (fetchHistorial out st).items = st.items ∧
    (fetchHistorial out st).err = "No se pudo cargar el historial. Revisa tu sesión." ∧
    (fetchHistorial out st).loading = false ∧
    (fetchHistorial out st).exporting = st.exporting := by
  rw [fetchHistorial_failed_eq out st hf]
  exact ⟨rfl, rfl, rfl, rfl⟩

/-- C5 at a concrete input: a 500 response while one record is held. -/
theorem fetchHistorial_failure_keeps_items_witness :
    (FetchOutcome.response 500 .malformed).failed = true ∧
    (fetchHistorial (.response 500 .malformed)
      { items := [registroAna], loading := false, err := "", exporting := true }).items =
        [registroAna] :=
  ⟨by decide,
   (fetchHistorial_failure_keeps_items (.response 500 .malformed)
      { items := [registroAna], loading := false, err := "", exporting := true }
      (by decide)).1⟩

/-- C6: the content of `<main>` is decided by loading, then the error message,
then the emptiness of the list; otherwise it is one row per record, in the order of
the held list. -/
theorem mainContent_precedence (P : Host) (now : Int) (st : State) :
    (st.loading = true → mainContent P now st = .cargando) ∧
    (st.loading = false → st.err ≠ "" → mainContent P now st = .error st.err) ∧
    (st.loading = false → st.err = "" → st.items = [] →
      mainContent P now st = .sinActividad) ∧
    (st.loading = false → st.err = "" → st.items ≠ [] →
      ∃ rows : List RowView, mainContent P now st = .lista rows ∧
        rows.length = st.items.length ∧
        rows.map (fun r => r.key) = st.items.map (fun it => it.id) ∧
        ∀ i : Nat, rows[i]? = (st.items[i]?).map (renderRow P now)) := by
  refine ⟨?_, ?_, ?_, ?_⟩
  · intro hl
    simp [mainContent, hl]
  · intro hl he
    simp [mainContent, hl, he]
  · intro hl he hi
    simp [mainContent, hl, he, hi]
  · intro hl he hi
    refine ⟨st.items.map (renderRow P now), ?_, ?_, ?_, ?_⟩
    · simp [mainContent, hl, he, hi]
    · simp
    · simp [renderRow]
    · intro i
      simp

/-- C7: a success response whose `items` is the empty array leaves an empty list,
no error message and loading false, so the placeholder is shown. -/
theorem fetchHistorial_empty_success (P : Host) (now : Int) (st : State) (status : Nat)
    (hok : statusOk status = true) :
    (fetchHistorial (.response status (.json (some []))) st).items = [] ∧
    (fetchHistorial (.response status (.json (some []))) st).err = "" ∧
    (fetchHistorial (.response status (.json (some []))) st).loading = false ∧
    mainContent P now (fetchHistorial (.response status (.json (some []))) st) =
      .sinActividad := by
  simp [fetchHistorial, fetchSettle, fetchStart, hok, mainContent]

/-- C7 at a concrete input: a 200 response with no items, after an error was
shown over a held record. -/
theorem fetchHistorial_empty_success_witness :
    statusOk 200 = true ∧
    mainContent testHost 1704067200000
      (fetchHistorial (.response 200 (.json (some [])))
        { items := [registroAna], loading := false, err := errorMessage, exporting := false }) =
      .sinActividad :=
  ⟨by decide,
   (fetchHistorial_empty_success testHost 1704067200000
      { items := [registroAna], loading := false, err := errorMessage, exporting := false }
      200 (by decide)).2.2.2⟩

/-- C8 as stated fails: after a successful fetch of one record and then a 500
response, the record is still held but `<main>` shows the error message, not the
row of that record. -/
theorem stale_list_not_displayed :
    (fetchHistorial (.response 500 .malformed)
      (fetchHistorial (.response 200 (.json (some [registroAna]))) State.init)).items =
        [registroAna] ∧
    mainContent testHost 1704067200000
      (fetchHistorial (.response 500 .malformed)
        (fetchHistorial (.response 200 (.json (some [registroAna]))) State.init)) =
        .error errorMessage ∧
    mainContent testHost 1704067200000
      (fetchHistorial (.response 500 .malformed)
        (fetchHistorial (.response 200 (.json (some [registroAna]))) State.init)) ≠
        .lista [renderRow testHost 1704067200000 registroAna] := by
  decide

/-- C8, amended: after a successful fetch of a non-empty list followed by a
failed fetch (a non-2xx status, or a network or transport failure), the list
stays held in the state, and `<main>` shows the error message alone; every failed
fetch shows the error message from any prior state, with or without an earlier
success. -/
theorem failure_after_success_shows_error (P : Host) (now : Int) (st : State)
    (items : List Registro) (okStatus : Nat) (out : FetchOutcome)
    (hok : statusOk okStatus = true) (_hne : items ≠ []) (hf : out.failed = true) :
    (fetchHistorial out
      (fetchHistorial (.response okStatus (.json (some items))) st)).items = items ∧
    mainContent P now
      (fetchHistorial out
        (fetchHistorial (.response okStatus (.json (some items))) st)) =
      .error errorMessage ∧
    mainContent P now (fetchHistorial out st) = .error errorMessage ∧
    FetchOutcome.rejected.failed = true ∧
    (∀ (status : Nat) (body : Body), statusOk status = false →
      (FetchOutcome.response status body).failed = true) := by
  have hmsg : errorMessage ≠ "" := by decide
  refine ⟨?_, ?_, ?_, rfl, ?_⟩
  · cases out with
    | rejected => simp [fetchHistorial, fetchSettle, fetchStart, hok]
    | response status body =>
      have hbad : statusOk status = false := by simpa [FetchOutcome.failed] using hf
      simp [fetchHistorial, fetchSettle, fetchStart, hok, hbad]
  · cases out with
    | rejected => simp [fetchHistorial, fetchSettle, fetchStart, mainContent, hmsg]
    | response status body =>
      have hbad : statusOk status = false := by simpa [FetchOutcome.failed] using hf
      simp [fetchHistorial, fetchSettle, fetchStart, mainContent, hmsg, hbad]
  · cases out with
    | rejected => simp [fetchHistorial, fetchSettle, fetchStart, mainContent, hmsg]
    | response status body =>
      have hbad : statusOk status = false := by simpa [FetchOutcome.failed] using hf
      simp [fetchHistorial, fetchSettle, fetchStart, mainContent, hmsg, hbad]
  · intro status body hbad
    simp [FetchOutcome.failed, hbad]

/-- C8 amended, at concrete inputs: one record fetched, then a 500 response, and
one record fetched, then a network failure. -/
theorem failure_after_success_shows_error_witness :
    statusOk 200 = true ∧
    (FetchOutcome.response 500 .malformed).failed = true ∧
    FetchOutcome.rejected.failed = true ∧
    mainContent testHost 1704067200000
      (fetchHistorial (.response 500 .malformed)
        (fetchHistorial (.response 200 (.json (some [registroAna]))) State.init)) =
      .error errorMessage ∧
    mainContent testHost 1704067200000
      (fetchHistorial .rejected
        (fetchHistorial (.response 200 (.json (some [registroAna]))) State.init)) =
      .error errorMessage ∧
    (fetchHistorial .rejected
      (fetchHistorial (.response 200 (.json (some [registroAna]))) State.init)).items =
      [registroAna] :=
  ⟨by decide, by decide, by decide,
   (failure_after_success_shows_error testHost 1704067200000 State.init [registroAna]
      200 (.response 500 .malformed) (by decide) (by decide) (by decide)).2.1,
   (failure_after_success_shows_error testHost 1704067200000 State.init [registroAna]
      200 .rejected (by decide) (by decide) (by decide)).2.1,
   (failure_after_success_shows_error testHost 1704067200000 State.init [registroAna]
      200 .rejected (by decide) (by decide) (by decide)).1⟩

/-! ## Theorems about the export -/

/-- C9: with an empty record list `exportExcel` has no effect on the outside
world (no spreadsheet written, no CSV fallback, no download), it ends with
exporting false and the other three slots as they were; `exportCSV` on an empty row
list has no effect either. -/
theorem exportExcel_empty_noop (P : Host) (now : Int) (xlsxWorks : Bool) (st : State)
    (hempty : st.items = []) :
    (exportExcel P now xlsxWorks st).effects = [] ∧
    (exportExcel P now xlsxWorks st).threw = false ∧
    (exportExcel P now xlsxWorks st).state =
      { items := st.items, loading := st.loading, err := st.err, exporting := false } ∧
    exportCSV P now [] = [] := by
  simp [exportExcel, hempty, rowsForExport, exportCSV]

/-- C9 at a concrete input: the export invoked on the initial state, where the
button is disabled. -/
theorem exportExcel_empty_noop_witness :
    State.init.items = [] ∧ exportDisabled State.init = true ∧
    (exportExcel testHost 1704067200000 true State.init).effects = [] ∧
    (exportExcel testHost 1704067200000 false State.init).effects = [] :=
  ⟨rfl, by decide,
   (exportExcel_empty_noop testHost 1704067200000 true State.init rfl).1,
   (exportExcel_empty_noop testHost 1704067200000 false State.init rfl).1⟩

/-- The shape of every row `exportRow` builds. -/
theorem exportRow_shape (P : Host) (it : Registro) (r : JSObject)
    (h : exportRow P it = some r) :
    ∃ t : Int, P.dateValue it.creado_en = some t ∧
      r = [ ("ID", it.id),
            ("Usuario", it.username),
            ("Texto", nullish it.texto_busqueda (.string "")),
            ("Tipo", nullish it.tipo (.string "")),
            ("Longitud", .number (toNumber P (nullish it.lng (.number (.finite 0))))),
            ("Latitud", .number (toNumber P (nullish it.lat (.number (.finite 0))))),
            ("FechaISO", .string (P.toISOString t)),
            ("FechaLocal", .string (P.toLocaleStringES t)) ] := by
  unfold exportRow at h
  cases hd : P.dateValue it.creado_en with
  | none => rw [hd] at h; cases h
  | some t =>
    rw [hd] at h
    exact ⟨t, rfl, (Option.some.inj h).symm⟩

/-- `rowsForExport` succeeds exactly by mapping `exportRow` over the records. -/
theorem rowsForExport_forall₂ (P : Host) (items : List Registro) (rows : List JSObject)
    (h : rowsForExport P items = some rows) :
    List.Forall₂ (fun it r => exportRow P it = some r) items rows := by
  induction items generalizing rows with
  | nil =>
    simp [rowsForExport] at h
    subst h
    exact List.Forall₂.nil
  | cons it rest ih =>
    unfold rowsForExport at h
    cases hr : exportRow P it with
    | none => rw [hr] at h; cases h
    | some r =>
      rw [hr] at h
      cases hrs : rowsForExport P rest with
      | none => rw [hrs] at h; cases h
      | some rs =>
        rw [hrs] at h
        have e := Option.some.inj h
        subst e
        exact List.Forall₂.cons hr (ih rs hrs)

/-- `rowsForExport` succeeds when every `creado_en` is a valid date. -/
theorem rowsForExport_isSome (P : Host) (items : List Registro)
    (hvalid : ∀ it ∈ items, ∃ t : Int, P.dateValue it.creado_en = some t) :
    ∃ rows, rowsForExport P items = some rows := by
  induction items with
  | nil => exact ⟨[], rfl⟩
  | cons it rest ih =>
    obtain ⟨t, ht⟩ := hvalid it (List.mem_cons_self it rest)
    obtain ⟨rs, hrs⟩ := ih (fun x hx => hvalid x (List.mem_cons_of_mem it hx))
    obtain ⟨r, hr⟩ : ∃ r, exportRow P it = some r := by
      unfold exportRow
      rw [ht]
      exact ⟨_, rfl⟩
    exact ⟨r :: rs, by simp only [rowsForExport, hr, hrs]⟩

/-- The source's field of a value is the field the specification describes. -/
theorem esc_eq_csvField (P : Host) (v : JSVal) : esc P v = csvField P v := by
  cases v <;> rfl

/-- Rows and records correspond index by index. -/
theorem forall₂_getElem? (P : Host) (items : List Registro) (rows : List JSObject)
    (h : List.Forall₂ (fun it r => exportRow P it = some r) items rows) :
    ∀ (i : Nat) (it : Registro), items[i]? = some it →
      ∃ r, rows[i]? = some r ∧ exportRow P it = some r := by
  induction h with
  | nil =>
    intro i it hi
    simp at hi
  | cons hr _ ih =>
    intro i it hi
    cases i with
    | zero =>
      simp at hi
      subst hi
      exact ⟨_, by simp, hr⟩
    | succ j =>
      simp at hi
      obtain ⟨r, h1, h2⟩ := ih j it hi
      exact ⟨r, by simpa using h1, h2⟩

/-- Every row of a successful `rowsForExport` was built by `exportRow`. -/
theorem forall₂_mem (P : Host) (items : List Registro) (rows : List JSObject)
    (h : List.Forall₂ (fun it r => exportRow P it = some r) items rows) :
    ∀ r ∈ rows, ∃ it, exportRow P it = some r := by
  induction h with
  | nil =>
    intro r hr
    cases hr
  | cons hr _ ih =>
    intro r hmem
    rcases List.mem_cons.mp hmem with e | hin
    · subst e
      exact ⟨_, hr⟩
    · exact ih r hin

/-- For a row built by `exportRow`, reading the header keys one by one gives
the properties of the row in order, and its keys are the eight column names. -/
theorem exportRow_line (P : Host) (it : Registro) (r : JSObject)
    (h : exportRow P it = some r) :
    r.keys = ["ID", "Usuario", "Texto", "Tipo", "Longitud", "Latitud", "FechaISO", "FechaLocal"] ∧
    (["ID", "Usuario", "Texto", "Tipo", "Longitud", "Latitud", "FechaISO", "FechaLocal"].map
      fun k => esc P (r.get k)) = r.map fun kv => csvField P kv.2 := by
  obtain ⟨t, _, rfl⟩ := exportRow_shape P it r h
  constructor
  · rfl
  · simp [JSObject.get, esc_eq_csvField]

/-- C3: for a non-empty list of rows produced by `rowsForExport`, `exportCSV`
downloads the text made of the header line
ID,Usuario,Texto,Tipo,Longitud,Latitud,FechaISO,FechaLocal and one line per row in
input order, each line the eight quoted fields of the row joined by commas, the
lines joined by CRLF; a Texto of He said "hi" is written "He said ""hi""". -/
theorem exportCSV_text (P : Host) (now : Int) (items : List Registro) (rows : List JSObject)
    (hrows : rowsForExport P items = some rows) (hne : rows ≠ []) :
    exportCSV P now rows =
      [.download ("historial_" ++ today P now ++ ".csv") "text/csv;charset=utf-8;"
        (csvSpec P rows)] ∧
    csvSpec P rows =
      String.intercalate "\r\n"
        ("ID,Usuario,Texto,Tipo,Longitud,Latitud,FechaISO,FechaLocal" ::
          rows.map fun r => String.intercalate "," (r.map fun kv => csvField P kv.2)) ∧
    rows.length = items.length ∧
    csvField P (.string "He said \"hi\"") = "\"He said \"\"hi\"\"\"" := by
  have hall := rowsForExport_forall₂ P items rows hrows
  have hmem := forall₂_mem P items rows hall
  refine ⟨?_, rfl, hall.length_eq.symm, rfl⟩
  cases rows with
  | nil => exact absurd rfl hne
  | cons r0 rest =>
    obtain ⟨it0, h0⟩ := hmem r0 (List.mem_cons_self r0 rest)
    have hk := (exportRow_line P it0 r0 h0).1
    have hlines : ((r0 :: rest).map fun r =>
        String.intercalate "," (r0.keys.map fun k => esc P (r.get k))) =
        (r0 :: rest).map (csvLine P) := by
      apply List.map_congr_left
      intro r hr
      obtain ⟨it, hit⟩ := hmem r hr
      rw [hk, (exportRow_line P it r hit).2]
      rfl
    have htext : csvText P r0 (r0 :: rest) = csvSpec P (r0 :: rest) := by
      unfold csvText csvSpec
      simp only []
      rw [hlines, hk]
      rfl
    unfold exportCSV
    simp only []
    rw [htext]
    rfl

/-- C3 at a concrete input: the row of the specification's example. -/
theorem exportCSV_text_witness :
    rowsForExport testHost [registroAna] =
      some [[("ID", .number (.finite 1)), ("Usuario", .string "ana"),
        ("Texto", .string "He said \"hi\""), ("Tipo", .string "unesco"),
        ("Longitud", .number (.finite (Rat.mk' 5 2 (by decide) (by decide)))),
        ("Latitud", .number (.finite (Rat.mk' 11 10 (by decide) (by decide)))),
        ("FechaISO", .string "2024-01-01T00:00:00.000Z"),
        ("FechaLocal", .string "1/1/2024, 0:00:00")]] ∧
    csvSpec testHost
      [[("ID", .number (.finite 1)), ("Usuario", .string "ana"),
        ("Texto", .string "He said \"hi\""), ("Tipo", .string "unesco"),
        ("Longitud", .number (.finite (Rat.mk' 5 2 (by decide) (by decide)))),
        ("Latitud", .number (.finite (Rat.mk' 11 10 (by decide) (by decide)))),
        ("FechaISO", .string "2024-01-01T00:00:00.000Z"),
        ("FechaLocal", .string "1/1/2024, 0:00:00")]] =
      "ID,Usuario,Texto,Tipo,Longitud,Latitud,FechaISO,FechaLocal\r\n\"1\",\"ana\",\"He said \"\"hi\"\"\",\"unesco\",\"2.5\",\"1.1\",\"2024-01-01T00:00:00.000Z\",\"1/1/2024, 0:00:00\"" ∧
    exportCSV testHost 1704672000000
      [[("ID", .number (.finite 1)), ("Usuario", .string "ana"),
        ("Texto", .string "He said \"hi\""), ("Tipo", .string "unesco"),
        ("Longitud", .number (.finite (Rat.mk' 5 2 (by decide) (by decide)))),
        ("Latitud", .number (.finite (Rat.mk' 11 10 (by decide) (by decide)))),
        ("FechaISO", .string "2024-01-01T00:00:00.000Z"),
        ("FechaLocal", .string "1/1/2024, 0:00:00")]] =
      [.download ("historial_" ++ today testHost 1704672000000 ++ ".csv")
        "text/csv;charset=utf-8;"
        (csvSpec testHost
          [[("ID", .number (.finite 1)), ("Usuario", .string "ana"),
            ("Texto", .string "He said \"hi\""), ("Tipo", .string "unesco"),
            ("Longitud", .number (.finite (Rat.mk' 5 2 (by decide) (by decide)))),
            ("Latitud", .number (.finite (Rat.mk' 11 10 (by decide) (by decide)))),
            ("FechaISO", .string "2024-01-01T00:00:00.000Z"),
            ("FechaLocal", .string "1/1/2024, 0:00:00")]])] :=
  ⟨by decide, by decide,
   (exportCSV_text testHost 1704672000000 [registroAna] _ (by decide) (by decide)).1⟩

/-- C4 as stated fails: a record whose `lng` is the string "abc", which is not
a numeric literal, gets the Longitud NaN, not 0. -/
theorem rowsForExport_unparseable_lng :
    testHost.StringToNumber "abc" = .nan ∧
    (rowsForExport testHost [{ registroAna with lng := .string "abc" }]).map
      (fun rows => rows.map fun r => r.get "Longitud") = some [.number .nan] ∧
    (rowsForExport testHost [{ registroAna with lng := .string "abc" }]).map
      (fun rows => rows.map fun r => r.get "Longitud") ≠ some [.number (.finite 0)] := by
  decide

/-- C4, amended: when every `creado_en` is a valid date, `rowsForExport` returns
one row per record in the same order, with the columns ID, Usuario, Texto, Tipo,
Longitud, Latitud, FechaISO, FechaLocal in that order; ID and Usuario are the id
and username, Texto and Tipo are texto_busqueda and tipo or the empty string when
these are null or missing, Longitud and Latitud are `Number` of lng and lat, or 0
when these are null or missing; a string coordinate that is not a numeric
literal gives NaN. -/
theorem rowsForExport_projection (P : Host) (items : List Registro)
    (hvalid : ∀ it ∈ items, ∃ t : Int, P.dateValue it.creado_en = some t) :
    ∃ rows, rowsForExport P items = some rows ∧ rows.length = items.length ∧
      ∀ (i : Nat) (it : Registro), items[i]? = some it →
        ∃ r, rows[i]? = some r ∧
          r.keys =
            ["ID", "Usuario", "Texto", "Tipo", "Longitud", "Latitud", "FechaISO", "FechaLocal"] ∧
          r.get "ID" = it.id ∧
          r.get "Usuario" = it.username ∧
          r.get "Texto" =
            (if it.texto_busqueda = .undefined ∨ it.texto_busqueda = .null then .string ""
              else it.texto_busqueda) ∧
          r.get "Tipo" =
            (if it.tipo = .undefined ∨ it.tipo = .null then .string "" else it.tipo) ∧
          r.get "Longitud" =
            .number (if it.lng = .undefined ∨ it.lng = .null then .finite 0
              else toNumber P it.lng) ∧
          r.get "Latitud" =
            .number (if it.lat = .undefined ∨ it.lat = .null then .finite 0
              else toNumber P it.lat) ∧
          (∀ s : String, it.lng = .string s → P.StringToNumber s = .nan →
            r.get "Longitud" = .number .nan) ∧
          (∀ s : String, it.lat = .string s → P.StringToNumber s = .nan →
            r.get "Latitud" = .number .nan) := by
  obtain ⟨rows, hrows⟩ := rowsForExport_isSome P items hvalid
  have hall := rowsForExport_forall₂ P items rows hrows
  refine ⟨rows, hrows, hall.length_eq.symm, ?_⟩
  intro i it hi
  obtain ⟨r, hr, hrow⟩ := forall₂_getElem? P items rows hall i it hi
  obtain ⟨t, _, rfl⟩ := exportRow_shape P it _ hrow
  refine ⟨_, hr, rfl, ?_, ?_, ?_, ?_, ?_, ?_, ?_, ?_⟩
  · simp [JSObject.get]
  · simp [JSObject.get]
  · cases h : it.texto_busqueda <;> simp [JSObject.get, nullish, h]
  · cases h : it.tipo <;> simp [JSObject.get, nullish, h]
  · cases h : it.lng <;> simp [JSObject.get, nullish, toNumber, h]
  · cases h : it.lat <;> simp [JSObject.get, nullish, toNumber, h]
  · intro s hs hnan
    simp [JSObject.get, nullish, toNumber, hs, hnan]
  · intro s hs hnan
    simp [JSObject.get, nullish, toNumber, hs, hnan]

/-- C4 amended, at a concrete input: the record of the specification's example. -/
theorem rowsForExport_projection_witness :
    (∀ it ∈ [registroAna], ∃ t : Int, testHost.dateValue it.creado_en = some t) ∧
    ∃ rows, rowsForExport testHost [registroAna] = some rows ∧ rows.length = 1 :=
  ⟨fun it hit => ⟨1704067200000, by rw [List.mem_singleton.mp hit]; decide⟩,
   (rowsForExport_projection testHost [registroAna]
      (fun it hit => ⟨1704067200000, by rw [List.mem_singleton.mp hit]; decide⟩)).imp
      fun _ h => ⟨h.1, h.2.1⟩⟩

end Reportes
